import Mathlib

/-!
Verification of the pet-shelter ETL pipeline (`pipeline.py`).

The pipeline extracts two tables (`mascotas`, `adopciones`) from a relational
store, validates them (`transformar_datos`), and writes CSV backups plus a
JSON quality report (`guardar_backups`), orchestrated by `ejecutar_pipeline`.

Rows arrive as Python dicts mapping column names to values; we embed them as
association lists over a small dynamic `Value` type mirroring the Python
values that occur (ints, strings, booleans, None).  Python operations used by
the pipeline (`dict.get`, truthiness, `==`/set membership, `str()` formatting,
the chained comparison `0 <= edad <= 30`, which raises `TypeError` on
non-numeric operands) are embedded explicitly below.  Fallible stages return
`Except`; file writes are abstracted by a per-path success oracle `writeOk`,
and `datetime.now()` by an explicit timestamp argument.
-/

/-- A dynamic Python value as it occurs in extracted rows: integer, string,
boolean, or `None`. -/
inductive Value where
  | vint  (n : Int)
  | vstr  (s : String)
  | vbool (b : Bool)
  | vnull
  deriving DecidableEq, Repr

/-- A row (Python dict): an association list from column names to values. -/
abbrev Record := List (String × Value)

/-- Python `d.get(k)`: `some v` when key `k` is present, `none` otherwise. -/
def getV (r : Record) (k : String) : Option Value :=
  (r.find? (fun p => p.1 == k)).map (fun p => p.2)

/-- Python `d.get(k, default)`: the stored value when the key is present
(even when that value is `None`), else the default. -/
def getD (r : Record) (k : String) (d : Value) : Value :=
  (getV r k).getD d

/-- Python truthiness of a value (`if m.get("adoptado", False)`):
`0`, `""`, `False` and `None` are falsy. -/
def pyTruthy : Value → Bool
  | .vint n  => n != 0
  | .vstr s  => s != ""
  | .vbool b => b
  | .vnull   => false

/-- Python `==` between values: ints and bools compare numerically
(`True == 1`), strings by content, `None` only equal to `None`, and
cross-type comparisons are `False`. -/
def pyEq : Value → Value → Bool
  | .vint a,  .vint b  => a == b
  | .vint a,  .vbool b => a == (if b then (1 : Int) else 0)
  | .vbool a, .vint b  => (if a then (1 : Int) else 0) == b
  | .vbool a, .vbool b => a == b
  | .vstr a,  .vstr b  => a == b
  | .vnull,   .vnull   => true
  | _,        _        => false

/-- Python `str()` of a value, as used by the f-string messages. -/
def pyStr : Value → String
  | .vint n  => toString n
  | .vstr s  => s
  | .vbool b => if b then "True" else "False"
  | .vnull   => "None"

/-- Python `x in s` for a collection of values (set membership uses `==`). -/
def memPy (v : Value) (l : List Value) : Bool :=
  l.any (fun w => pyEq v w)

/-- The chained comparison `0 <= edad <= 30` from `transformar_datos`.
Defined on ints (and bools, which are int subclasses in Python: `False` is 0
and `True` is 1, both inside the range); on a string or `None` operand Python
raises `TypeError`, embedded as `Except.error`. -/
def enRango (v : Value) : Except String Bool :=
  match v with
  | .vint n  => .ok (decide (0 ≤ n ∧ n ≤ 30))
  | .vbool _ => .ok true
  | .vstr _  => .error "TypeError"
  | .vnull   => .error "TypeError"

/-- One entry of the quality report's `problemas` list.  The Python dict for
an `edad_invalida` problem carries a `valor_actual` key while a
`relacion_invalida` problem does not; `valor_actual` is therefore optional. -/
structure Problema where
  tipo : String
  tabla : String
  id : Value
  valor_actual : Option Value
  mensaje : String
  deriving DecidableEq, Repr

/-- The quality report built by `transformar_datos`: timestamp, the
`estadisticas` block, and the ordered list of problems. -/
structure Reporte where
  timestamp : String
  total_mascotas : Nat
  mascotas_adoptadas : Nat
  total_adopciones : Nat
  problemas : List Problema
  deriving DecidableEq, Repr

/-- The extraction result `datos`: the rows of the two required tables. -/
structure Datos where
  mascotas : List Record
  adopciones : List Record
  deriving DecidableEq, Repr

/-- Validation 1 of `transformar_datos`: the loop
`for idx, mascota in enumerate(datos["mascotas"])`.  Each pet's age is read
with `mascota.get("edad", 0)`; when `not (0 <= edad <= 30)` a problem dict is
appended with id `mascota.get("id", idx)`, the offending value, and the
message `f"Edad {edad} fuera de rango (0-30)"`.  A `TypeError` from the
comparison aborts the stage. -/
def validarEdades : Nat → List Record → Except String (List Problema)
  | _, [] => .ok []
  | idx, m :: rest => do
    let edad := getD m "edad" (.vint 0)
    let ok ← enRango edad
    let restP ← validarEdades (idx + 1) rest
    if ok then
      .ok restP
    else
      .ok ({ tipo := "edad_invalida"
           , tabla := "mascotas"
           , id := getD m "id" (.vint idx)
           , valor_actual := some edad
           , mensaje := "Edad " ++ pyStr edad ++ " fuera de rango (0-30)" } :: restP)

/-- The set comprehension
`{m.get("id") for m in datos["mascotas"] if m.get("id") is not None}`:
the pet ids that are present and not `None` (kept as a list; only
`in`-membership is used downstream). -/
def idsMascotas (mascotas : List Record) : List Value :=
  mascotas.filterMap (fun m =>
    match getV m "id" with
    | some .vnull => none
    | some v => some v
    | none => none)

/-- Validation 2 of `transformar_datos`: for every adoption row, when
`adopcion.get("mascota_id")` is not in the pet-id set, append a problem dict
with id `adopcion.get("id")` and message `f"Mascota {mascota_id} no existe"`. -/
def validarRelaciones (ids : List Value) : List Record → List Problema
  | [] => []
  | a :: rest =>
    let mascota_id := getD a "mascota_id" .vnull
    let restP := validarRelaciones ids rest
    if memPy mascota_id ids then
      restP
    else
      { tipo := "relacion_invalida"
      , tabla := "adopciones"
      , id := getD a "id" .vnull
      , valor_actual := none
      , mensaje := "Mascota " ++ pyStr mascota_id ++ " no existe" } :: restP

/-- `transformar_datos(datos)`: builds the report (timestamp from
`datetime.now().isoformat()`, passed here as `now`; the three statistics;
then the two validation passes appending to `problemas` in order) and returns
the unmodified data together with the report.  An exception from validation 1
propagates (embedded as `Except.error`). -/
def transformar_datos (now : String) (datos : Datos) : Except String (Datos × Reporte) := do
  let probEdades ← validarEdades 0 datos.mascotas
  .ok (datos,
    { timestamp := now
    , total_mascotas := datos.mascotas.length
    , mascotas_adoptadas :=
        (datos.mascotas.filter (fun m => pyTruthy (getD m "adoptado" (.vbool false)))).length
    , total_adopciones := datos.adopciones.length
    , problemas :=
        probEdades ++ validarRelaciones (idsMascotas datos.mascotas) datos.adopciones })

/-- The relational store as `extraer_datos` sees it: the table catalog
(`metadata.tables`), each table name with its rows in storage order. -/
structure Store where
  tablas : List (String × List Record)
  deriving Repr

/-- The required tables of `extraer_datos`
(`tablas_requeridas = {'mascotas', 'adopciones'}`). -/
def tablasRequeridas : List String := ["mascotas", "adopciones"]

/-- `faltantes = tablas_requeridas - tablas_disponibles`: the required tables
absent from the catalog of the store.  Computed from table names only. -/
def faltantes (store : Store) : List String :=
  tablasRequeridas.filter (fun t => !(store.tablas.map (fun p => p.1)).contains t)

/-- The rows of table `t` in the store (`conn.execute(...select())`). -/
def filasDe (store : Store) (t : String) : List Record :=
  ((store.tablas.find? (fun p => p.1 == t)).map (fun p => p.2)).getD []

/-- `extraer_datos(engine)`: inspects the catalog, raises
`ValueError(f"Tablas faltantes en la base de datos: {faltantes}")` when any
required table is missing — before any row is read — and otherwise reads every
row of both tables.  The error value carries the missing set. -/
def extraer_datos (store : Store) : Except (List String) Datos :=
  if faltantes store ≠ [] then
    .error (faltantes store)
  else
    .ok { mascotas := filasDe store "mascotas", adopciones := filasDe store "adopciones" }

/-- The CSV path `Path(backups_dir) / f"{tabla}_{timestamp}.csv"`. -/
def archivoCSV (dir ts tabla : String) : String :=
  dir ++ "/" ++ tabla ++ "_" ++ ts ++ ".csv"

/-- The report path `Path(backups_dir) / f"reporte_calidad_{timestamp}.json"`. -/
def archivoJSON (dir ts : String) : String :=
  dir ++ "/reporte_calidad_" ++ ts ++ ".json"

/-- One iteration of the backup loop `for tabla, registros in datos.items()`:
an empty table is skipped (`continue`, no file), otherwise the CSV
`f"{tabla}_{timestamp}.csv"` is written inside `try/except` — on success its
path is appended to `archivos_generados`, on failure the exception is caught
and the path is not appended.  `writeOk` tells whether writing a given path
succeeds. -/
def escribirTabla (writeOk : String → Bool) (dir ts : String)
    (acc : List String) (tabla : String × List Record) : List String :=
  if tabla.2.isEmpty then
    acc
  else
    let archivo := archivoCSV dir ts tabla.1
    if writeOk archivo then acc ++ [archivo] else acc

/-- `guardar_backups(datos, reporte, backups_dir)`: writes one CSV per
non-empty table, then the quality report `f"reporte_calidad_{timestamp}.json"`
(always attempted, also inside `try/except`), and returns the list of
generated file paths.  Per-file failures are caught, so the stage itself never
raises.  The run timestamp `ts` is `datetime.now().strftime("%Y%m%d_%H%M%S")`,
taken as a parameter; file contents are not modelled, only which files are
produced. -/
def guardar_backups (writeOk : String → Bool) (ts : String)
    (datos : Datos) (reporte : Reporte) (backups_dir : String) : List String :=
  let csvs := [("mascotas", datos.mascotas), ("adopciones", datos.adopciones)].foldl
      (escribirTabla writeOk backups_dir ts) []
  let archivo_json := archivoJSON backups_dir ts
  if writeOk archivo_json then csvs ++ [archivo_json] else csvs

/-- `ejecutar_pipeline()`: extraction, transformation, then backups; any
exception from a stage is caught by the outer `try/except` and the run returns
`False` without reaching `guardar_backups`.  Returns the success flag together
with the files generated by the run (none on a failed run). -/
def ejecutar_pipeline (writeOk : String → Bool) (now ts backups_dir : String)
    (store : Store) : Bool × List String :=
  match extraer_datos store with
  | .error _ => (false, [])
  | .ok datos =>
    match transformar_datos now datos with
    | .error _ => (false, [])
    | .ok (datosT, reporte) =>
      (true, guardar_backups writeOk ts datosT reporte backups_dir)

/-! ### Derived per-record forms of the two validation passes -/

/-- The age of a pet row as the code reads it: `mascota.get("edad", 0)`. -/
def edadDe (m : Record) : Value :=
  getD m "edad" (.vint 0)

/-- Whether the age comparison of validation 1 runs without a `TypeError` on
row `m`: the value read for `edad` is an int or a bool. -/
def edadComparable (m : Record) : Bool :=
  match edadDe m with
  | .vint _ => true
  | .vbool _ => true
  | _ => false

/-- The problem (if any) that validation 1 emits for the pet row at position
`p.1` with content `p.2`, assuming the comparison does not raise. -/
def problemaEdadDe (p : Nat × Record) : Option Problema :=
  match enRango (edadDe p.2) with
  | .ok true => none
  | .ok false => some
      { tipo := "edad_invalida"
      , tabla := "mascotas"
      , id := getD p.2 "id" (.vint p.1)
      , valor_actual := some (edadDe p.2)
      , mensaje := "Edad " ++ pyStr (edadDe p.2) ++ " fuera de rango (0-30)" }
  | .error _ => none

/-- The problem (if any) that validation 2 emits for the adoption row `a`
against the pet-id set `ids`. -/
def problemaRelacionDe (ids : List Value) (a : Record) : Option Problema :=
  if memPy (getD a "mascota_id" .vnull) ids then
    none
  else
    some { tipo := "relacion_invalida"
         , tabla := "adopciones"
         , id := getD a "id" .vnull
         , valor_actual := none
         , mensaje := "Mascota " ++ pyStr (getD a "mascota_id" .vnull) ++ " no existe" }

lemma enRango_isOk_of_comparable {m : Record} (h : edadComparable m = true) :
    ∃ b, enRango (edadDe m) = .ok b := by
  unfold edadComparable at h
  unfold enRango
  cases hv : edadDe m <;> simp [hv] at h ⊢

/-- Validation 1 never raises on rows with comparable ages, and emits exactly
the per-record problems, in enumeration order. -/
lemma validarEdades_eq_filterMap (idx : Nat) (ms : List Record)
    (h : ∀ m ∈ ms, edadComparable m = true) :
    validarEdades idx ms = .ok ((List.enumFrom idx ms).filterMap problemaEdadDe) := by
  induction ms generalizing idx with
  | nil => simp [validarEdades, List.enumFrom]
  | cons m rest ih =>
    have hm : edadComparable m = true := h m (List.mem_cons_self m rest)
    obtain ⟨b, hb⟩ := enRango_isOk_of_comparable hm
    have hrest := ih (idx + 1) (fun x hx => h x (List.mem_cons_of_mem m hx))
    simp only [validarEdades, edadDe] at hb ⊢
    rw [hb, hrest]
    cases b with
    | true =>
      simp [List.enumFrom, List.filterMap, problemaEdadDe, edadDe, hb, Bind.bind, Except.bind]
    | false =>
      simp [List.enumFrom, List.filterMap, problemaEdadDe, edadDe, hb, Bind.bind, Except.bind]

/-- Validation 2 emits exactly the per-record problems, in input order. -/
lemma validarRelaciones_eq_filterMap (ids : List Value) (as : List Record) :
    validarRelaciones ids as = as.filterMap (problemaRelacionDe ids) := by
  induction as with
  | nil => rfl
  | cons a rest ih =>
    simp only [validarRelaciones, ih, List.filterMap, problemaRelacionDe]
    by_cases hmem : memPy (getD a "mascota_id" .vnull) ids <;> simp [hmem]

/-- `transformar_datos` on comparable ages: explicit success value. -/
lemma transformar_datos_ok (now : String) (datos : Datos)
    (h : ∀ m ∈ datos.mascotas, edadComparable m = true) :
    transformar_datos now datos = .ok (datos,
      { timestamp := now
      , total_mascotas := datos.mascotas.length
      , mascotas_adoptadas :=
          (datos.mascotas.filter (fun m => pyTruthy (getD m "adoptado" (.vbool false)))).length
      , total_adopciones := datos.adopciones.length
      , problemas :=
          (List.enumFrom 0 datos.mascotas).filterMap problemaEdadDe
            ++ (datos.adopciones).filterMap (problemaRelacionDe (idsMascotas datos.mascotas)) }) := by
  unfold transformar_datos
  rw [validarEdades_eq_filterMap 0 datos.mascotas h, validarRelaciones_eq_filterMap]
  rfl

/-! ### Claim theorems -/

/-- C1: for every pet record whose age lies in [0, 30] the transformer
produces no `edad_invalida` problem for that record, and for every pet record
whose age lies outside [0, 30] it produces exactly one, carrying the table
`"mascotas"`, the record's id (or its position when the id key is absent), the
offending value, and the message stating the value and the range.  The
report's problem list contains, per enumerated pet record, exactly the
contribution `problemaEdadDe` of that record. -/
theorem edad_invalida_caracterizacion
    (now : String) (datos : Datos)
    (h : ∀ m ∈ datos.mascotas, edadComparable m = true) :
    ∃ r : Reporte,
      transformar_datos now datos = .ok (datos, r) ∧
      r.problemas = (List.enumFrom 0 datos.mascotas).filterMap problemaEdadDe
          ++ datos.adopciones.filterMap (problemaRelacionDe (idsMascotas datos.mascotas)) ∧
      ∀ (idx : Nat) (m : Record) (n : Int), edadDe m = .vint n →
        ((0 ≤ n ∧ n ≤ 30) → problemaEdadDe (idx, m) = none) ∧
        ((n < 0 ∨ 30 < n) → problemaEdadDe (idx, m) = some
            { tipo := "edad_invalida"
            , tabla := "mascotas"
            , id := getD m "id" (.vint idx)
            , valor_actual := some (.vint n)
            , mensaje := "Edad " ++ toString n ++ " fuera de rango (0-30)" }) := by
  refine ⟨_, transformar_datos_ok now datos h, rfl, ?_⟩
  intro idx m n hn
  constructor
  · intro hin
    simp [problemaEdadDe, hn, enRango, hin.1, hin.2]
  · intro hout
    have hne : ¬ (0 ≤ n ∧ n ≤ 30) := by
      rcases hout with h1 | h1 <;> omega
    simp [problemaEdadDe, hn, enRango, hne, pyStr]

/-- Witness for C1 on a concrete input: one pet with age 35 (out of range) and
one with age 3 (in range). -/
theorem edad_invalida_caracterizacion_witness :
    (∀ m ∈ (Datos.mk [[("id", Value.vint 1), ("edad", Value.vint 35)],
                      [("id", Value.vint 2), ("edad", Value.vint 3)]] []).mascotas,
        edadComparable m = true) ∧
    (∃ r : Reporte,
      transformar_datos "t"
          (Datos.mk [[("id", Value.vint 1), ("edad", Value.vint 35)],
                     [("id", Value.vint 2), ("edad", Value.vint 3)]] []) =
        .ok (Datos.mk [[("id", Value.vint 1), ("edad", Value.vint 35)],
                       [("id", Value.vint 2), ("edad", Value.vint 3)]] [], r) ∧
      r.problemas = (List.enumFrom 0 (Datos.mk [[("id", Value.vint 1), ("edad", Value.vint 35)],
                       [("id", Value.vint 2), ("edad", Value.vint 3)]] []).mascotas).filterMap problemaEdadDe
          ++ (Datos.mk [[("id", Value.vint 1), ("edad", Value.vint 35)],
                       [("id", Value.vint 2), ("edad", Value.vint 3)]] []).adopciones.filterMap
              (problemaRelacionDe (idsMascotas (Datos.mk [[("id", Value.vint 1), ("edad", Value.vint 35)],
                       [("id", Value.vint 2), ("edad", Value.vint 3)]] []).mascotas)) ∧
      ∀ (idx : Nat) (m : Record) (n : Int), edadDe m = .vint n →
        ((0 ≤ n ∧ n ≤ 30) → problemaEdadDe (idx, m) = none) ∧
        ((n < 0 ∨ 30 < n) → problemaEdadDe (idx, m) = some
            { tipo := "edad_invalida"
            , tabla := "mascotas"
            , id := getD m "id" (.vint idx)
            , valor_actual := some (.vint n)
            , mensaje := "Edad " ++ toString n ++ " fuera de rango (0-30)" })) :=
  ⟨by decide, edad_invalida_caracterizacion "t" _ (by decide)⟩

/-- C2: a pet record without an `edad` key is read as age 0 by
`mascota.get("edad", 0)`, yields no `edad_invalida` problem, and the
transformation stage succeeds (does not abort) when every pet age is either
missing or comparable. -/
theorem edad_faltante_tratada_como_cero
    (now : String) (datos : Datos)
    (h : ∀ m ∈ datos.mascotas, getV m "edad" = none ∨ edadComparable m = true) :
    (∃ r : Reporte, transformar_datos now datos = .ok (datos, r)) ∧
    ∀ (idx : Nat) (m : Record), getV m "edad" = none →
      edadDe m = .vint 0 ∧ problemaEdadDe (idx, m) = none := by
  have hcomp : ∀ m ∈ datos.mascotas, edadComparable m = true := by
    intro m hm
    rcases h m hm with hmiss | hok
    · simp [edadComparable, edadDe, getD, hmiss]
    · exact hok
  refine ⟨⟨_, transformar_datos_ok now datos hcomp⟩, ?_⟩
  intro idx m hmiss
  have hz : edadDe m = .vint 0 := by simp [edadDe, getD, hmiss]
  exact ⟨hz, by simp [problemaEdadDe, hz, enRango]⟩

/-- Witness for C2: one pet whose row has an id but no `edad` key. -/
theorem edad_faltante_tratada_como_cero_witness :
    (∀ m ∈ (Datos.mk [[("id", Value.vint 7)]] []).mascotas,
        getV m "edad" = none ∨ edadComparable m = true) ∧
    ((∃ r : Reporte,
        transformar_datos "t" (Datos.mk [[("id", Value.vint 7)]] []) =
          .ok (Datos.mk [[("id", Value.vint 7)]] [], r)) ∧
      ∀ (idx : Nat) (m : Record), getV m "edad" = none →
        edadDe m = .vint 0 ∧ problemaEdadDe (idx, m) = none) :=
  ⟨by decide, edad_faltante_tratada_como_cero "t" _ (by decide)⟩

/-- C3: for every adoption record whose `mascota_id` matches no element of the
pet-id set, the transformer produces exactly one `relacion_invalida` problem
with table `"adopciones"`, the adoption's id and the message naming the
missing reference; for every adoption whose `mascota_id` does match, none is
produced.  Per adoption record the report contains exactly the contribution
`problemaRelacionDe` of that record, and matching is Python equality against
the set built by `idsMascotas`. -/
theorem relacion_invalida_caracterizacion
    (now : String) (datos : Datos)
    (h : ∀ m ∈ datos.mascotas, edadComparable m = true) :
    ∃ r : Reporte,
      transformar_datos now datos = .ok (datos, r) ∧
      r.problemas = (List.enumFrom 0 datos.mascotas).filterMap problemaEdadDe
          ++ datos.adopciones.filterMap (problemaRelacionDe (idsMascotas datos.mascotas)) ∧
      ∀ a : Record,
        ((∃ v ∈ idsMascotas datos.mascotas, pyEq (getD a "mascota_id" .vnull) v = true) →
          problemaRelacionDe (idsMascotas datos.mascotas) a = none) ∧
        ((∀ v ∈ idsMascotas datos.mascotas, pyEq (getD a "mascota_id" .vnull) v = false) →
          problemaRelacionDe (idsMascotas datos.mascotas) a = some
            { tipo := "relacion_invalida"
            , tabla := "adopciones"
            , id := getD a "id" .vnull
            , valor_actual := none
            , mensaje := "Mascota " ++ pyStr (getD a "mascota_id" .vnull) ++ " no existe" }) := by
  refine ⟨_, transformar_datos_ok now datos h, rfl, ?_⟩
  intro a
  constructor
  · intro hmatch
    have hmem : memPy (getD a "mascota_id" .vnull) (idsMascotas datos.mascotas) = true :=
      List.any_eq_true.mpr hmatch
    simp [problemaRelacionDe, hmem]
  · intro hnone
    have hmem : memPy (getD a "mascota_id" .vnull) (idsMascotas datos.mascotas) = false := by
      rw [Bool.eq_false_iff]
      intro hc
      obtain ⟨v, hv, hpe⟩ := List.any_eq_true.mp hc
      exact absurd hpe (by simp [hnone v hv])
    simp [problemaRelacionDe, hmem]

/-- Witness for C3: pets with ids 1 and 2; adoptions referencing pet 1
(matching) and pet 99 (dangling). -/
theorem relacion_invalida_caracterizacion_witness :
    (∀ m ∈ (Datos.mk [[("id", Value.vint 1)], [("id", Value.vint 2)]]
        [[("id", Value.vint 1), ("mascota_id", Value.vint 1)],
         [("id", Value.vint 2), ("mascota_id", Value.vint 99)]]).mascotas,
        edadComparable m = true) ∧
    (∃ r : Reporte,
      transformar_datos "t"
          (Datos.mk [[("id", Value.vint 1)], [("id", Value.vint 2)]]
            [[("id", Value.vint 1), ("mascota_id", Value.vint 1)],
             [("id", Value.vint 2), ("mascota_id", Value.vint 99)]]) =
        .ok (Datos.mk [[("id", Value.vint 1)], [("id", Value.vint 2)]]
            [[("id", Value.vint 1), ("mascota_id", Value.vint 1)],
             [("id", Value.vint 2), ("mascota_id", Value.vint 99)]], r) ∧
      r.problemas = (List.enumFrom 0 (Datos.mk [[("id", Value.vint 1)], [("id", Value.vint 2)]]
            [[("id", Value.vint 1), ("mascota_id", Value.vint 1)],
             [("id", Value.vint 2), ("mascota_id", Value.vint 99)]]).mascotas).filterMap problemaEdadDe
          ++ (Datos.mk [[("id", Value.vint 1)], [("id", Value.vint 2)]]
            [[("id", Value.vint 1), ("mascota_id", Value.vint 1)],
             [("id", Value.vint 2), ("mascota_id", Value.vint 99)]]).adopciones.filterMap
              (problemaRelacionDe (idsMascotas (Datos.mk [[("id", Value.vint 1)], [("id", Value.vint 2)]]
            [[("id", Value.vint 1), ("mascota_id", Value.vint 1)],
             [("id", Value.vint 2), ("mascota_id", Value.vint 99)]]).mascotas)) ∧
      ∀ a : Record,
        ((∃ v ∈ idsMascotas (Datos.mk [[("id", Value.vint 1)], [("id", Value.vint 2)]]
            [[("id", Value.vint 1), ("mascota_id", Value.vint 1)],
             [("id", Value.vint 2), ("mascota_id", Value.vint 99)]]).mascotas,
            pyEq (getD a "mascota_id" .vnull) v = true) →
          problemaRelacionDe (idsMascotas (Datos.mk [[("id", Value.vint 1)], [("id", Value.vint 2)]]
            [[("id", Value.vint 1), ("mascota_id", Value.vint 1)],
             [("id", Value.vint 2), ("mascota_id", Value.vint 99)]]).mascotas) a = none) ∧
        ((∀ v ∈ idsMascotas (Datos.mk [[("id", Value.vint 1)], [("id", Value.vint 2)]]
            [[("id", Value.vint 1), ("mascota_id", Value.vint 1)],
             [("id", Value.vint 2), ("mascota_id", Value.vint 99)]]).mascotas,
            pyEq (getD a "mascota_id" .vnull) v = false) →
          problemaRelacionDe (idsMascotas (Datos.mk [[("id", Value.vint 1)], [("id", Value.vint 2)]]
            [[("id", Value.vint 1), ("mascota_id", Value.vint 1)],
             [("id", Value.vint 2), ("mascota_id", Value.vint 99)]]).mascotas) a = some
            { tipo := "relacion_invalida"
            , tabla := "adopciones"
            , id := getD a "id" .vnull
            , valor_actual := none
            , mensaje := "Mascota " ++ pyStr (getD a "mascota_id" .vnull) ++ " no existe" })) :=
  ⟨by decide, relacion_invalida_caracterizacion "t" _ (by decide)⟩

/-- C4: the report's statistics equal the input sizes — `total_mascotas` is
the number of pet rows, `total_adopciones` the number of adoption rows,
`mascotas_adoptadas` the number of pet rows whose `adoptado` flag is `True` —
and `mascotas_adoptadas ≤ total_mascotas`.  The flag hypothesis states that
`adoptado`, a Boolean column, is a bool, `None`, or absent on every row. -/
theorem estadisticas_invariante
    (now : String) (datos : Datos)
    (h : ∀ m ∈ datos.mascotas, edadComparable m = true)
    (hflag : ∀ m ∈ datos.mascotas,
      getV m "adoptado" = none ∨ getV m "adoptado" = some .vnull ∨
        ∃ b : Bool, getV m "adoptado" = some (.vbool b)) :
    ∃ r : Reporte,
      transformar_datos now datos = .ok (datos, r) ∧
      r.total_mascotas = datos.mascotas.length ∧
      r.total_adopciones = datos.adopciones.length ∧
      r.mascotas_adoptadas =
        (datos.mascotas.filter
          (fun m => getD m "adoptado" (.vbool false) == Value.vbool true)).length ∧
      r.mascotas_adoptadas ≤ r.total_mascotas := by
  refine ⟨_, transformar_datos_ok now datos h, rfl, rfl, ?_, ?_⟩
  · have : datos.mascotas.filter (fun m => pyTruthy (getD m "adoptado" (.vbool false))) =
        datos.mascotas.filter (fun m => getD m "adoptado" (.vbool false) == Value.vbool true) := by
      apply List.filter_congr
      intro m hm
      rcases hflag m hm with hmiss | hnull | ⟨b, hb⟩
      · simp [getD, hmiss, pyTruthy]
      · simp [getD, hnull, pyTruthy]
      · cases b <;> simp [getD, hb, pyTruthy]
    simpa using congrArg List.length this
  · simpa using List.length_filter_le
      (fun m => pyTruthy (getD m "adoptado" (.vbool false))) datos.mascotas

/-- Witness for C4: two pets, one adopted, one with the flag absent, and one
adoption row. -/
theorem estadisticas_invariante_witness :
    (∀ m ∈ (Datos.mk [[("id", Value.vint 1), ("adoptado", Value.vbool true)],
                      [("id", Value.vint 2)]] [[("id", Value.vint 1)]]).mascotas,
        edadComparable m = true) ∧
    (∀ m ∈ (Datos.mk [[("id", Value.vint 1), ("adoptado", Value.vbool true)],
                      [("id", Value.vint 2)]] [[("id", Value.vint 1)]]).mascotas,
        getV m "adoptado" = none ∨ getV m "adoptado" = some .vnull ∨
          ∃ b : Bool, getV m "adoptado" = some (.vbool b)) ∧
    (∃ r : Reporte,
      transformar_datos "t"
          (Datos.mk [[("id", Value.vint 1), ("adoptado", Value.vbool true)],
                     [("id", Value.vint 2)]] [[("id", Value.vint 1)]]) =
        .ok (Datos.mk [[("id", Value.vint 1), ("adoptado", Value.vbool true)],
                       [("id", Value.vint 2)]] [[("id", Value.vint 1)]], r) ∧
      r.total_mascotas = (Datos.mk [[("id", Value.vint 1), ("adoptado", Value.vbool true)],
                       [("id", Value.vint 2)]] [[("id", Value.vint 1)]]).mascotas.length ∧
      r.total_adopciones = (Datos.mk [[("id", Value.vint 1), ("adoptado", Value.vbool true)],
                       [("id", Value.vint 2)]] [[("id", Value.vint 1)]]).adopciones.length ∧
      r.mascotas_adoptadas =
        ((Datos.mk [[("id", Value.vint 1), ("adoptado", Value.vbool true)],
                       [("id", Value.vint 2)]] [[("id", Value.vint 1)]]).mascotas.filter
          (fun m => getD m "adoptado" (.vbool false) == Value.vbool true)).length ∧
      r.mascotas_adoptadas ≤ r.total_mascotas) := by
  refine ⟨by decide, by decide, estadisticas_invariante "t" _ (by decide) ?_⟩
  intro m hm
  fin_cases hm
  · exact Or.inr (Or.inr ⟨true, rfl⟩)
  · exact Or.inl rfl

/-- C5: when a required table is absent from the catalog, extraction fails
with an error naming exactly the set of missing required tables, the outcome
depends only on the catalog's table names (so no row is read), and the whole
run fails producing no output files; a store exposing only `mascotas` fails
naming exactly `adopciones`. -/
theorem tablas_faltantes_abortan
    (store : Store)
    (h : ¬ ("mascotas" ∈ store.tablas.map Prod.fst ∧
            "adopciones" ∈ store.tablas.map Prod.fst)) :
    ∃ l : List String, l ≠ [] ∧
      extraer_datos store = .error l ∧
      (∀ t : String, t ∈ l ↔ t ∈ tablasRequeridas ∧ t ∉ store.tablas.map Prod.fst) ∧
      (∀ otherStore : Store, otherStore.tablas.map Prod.fst = store.tablas.map Prod.fst →
        extraer_datos otherStore = .error l) ∧
      (∀ (writeOk : String → Bool) (now ts dir : String),
        ejecutar_pipeline writeOk now ts dir store = (false, [])) ∧
      (store.tablas.map Prod.fst = ["mascotas"] → l = ["adopciones"]) := by
  have hmem : ∀ s : Store, ∀ t : String,
      t ∈ faltantes s ↔ t ∈ tablasRequeridas ∧ t ∉ s.tablas.map Prod.fst := by
    intro s t
    simp [faltantes, List.mem_filter]
  have hne : faltantes store ≠ [] := by
    intro hc
    rcases not_and_or.mp h with hm | ha
    · have : "mascotas" ∈ faltantes store :=
        (hmem store "mascotas").mpr ⟨by simp [tablasRequeridas], hm⟩
      simp [hc] at this
    · have : "adopciones" ∈ faltantes store :=
        (hmem store "adopciones").mpr ⟨by simp [tablasRequeridas], ha⟩
      simp [hc] at this
  have hext : extraer_datos store = .error (faltantes store) := by
    simp [extraer_datos, hne]
  refine ⟨faltantes store, hne, hext, hmem store, ?_, ?_, ?_⟩
  · intro otherStore hnames
    have hf : faltantes otherStore = faltantes store := by
      simp [faltantes, hnames]
    rw [show extraer_datos otherStore = .error (faltantes otherStore) from by
          simp [extraer_datos, hf, hne],
        hf]
  · intro writeOk now ts dir
    simp [ejecutar_pipeline, hext]
  · intro honly
    simp [faltantes, honly, tablasRequeridas]

/-- Witness for C5: a store whose catalog contains only the `mascotas` table
(with one row). -/
theorem tablas_faltantes_abortan_witness :
    ¬ ("mascotas" ∈ (Store.mk [("mascotas", [[("id", Value.vint 1)]])]).tablas.map Prod.fst ∧
       "adopciones" ∈ (Store.mk [("mascotas", [[("id", Value.vint 1)]])]).tablas.map Prod.fst) ∧
    (∃ l : List String, l ≠ [] ∧
      extraer_datos (Store.mk [("mascotas", [[("id", Value.vint 1)]])]) = .error l ∧
      (∀ t : String, t ∈ l ↔ t ∈ tablasRequeridas ∧
        t ∉ (Store.mk [("mascotas", [[("id", Value.vint 1)]])]).tablas.map Prod.fst) ∧
      (∀ otherStore : Store, otherStore.tablas.map Prod.fst =
          (Store.mk [("mascotas", [[("id", Value.vint 1)]])]).tablas.map Prod.fst →
        extraer_datos otherStore = .error l) ∧
      (∀ (writeOk : String → Bool) (now ts dir : String),
        ejecutar_pipeline writeOk now ts dir
          (Store.mk [("mascotas", [[("id", Value.vint 1)]])]) = (false, [])) ∧
      ((Store.mk [("mascotas", [[("id", Value.vint 1)]])]).tablas.map Prod.fst =
          ["mascotas"] → l = ["adopciones"])) :=
  ⟨by decide, tablas_faltantes_abortan _ (by decide)⟩

lemma problemaEdadDe_tipo {x : Nat × Record} {p : Problema}
    (h : problemaEdadDe x = some p) : p.tipo = "edad_invalida" := by
  unfold problemaEdadDe at h
  cases he : enRango (edadDe x.2) with
  | error e => simp [he] at h
  | ok b =>
    cases b with
    | true => simp [he] at h
    | false =>
      simp [he] at h
      rw [← h]

lemma problemaRelacionDe_tipo {ids : List Value} {a : Record} {p : Problema}
    (h : problemaRelacionDe ids a = some p) : p.tipo = "relacion_invalida" := by
  unfold problemaRelacionDe at h
  by_cases hmem : memPy (getD a "mascota_id" .vnull) ids
  · simp [hmem] at h
  · simp [hmem] at h
    rw [← h]

/-- C6: the backup writer produces one CSV per non-empty table, skips every
empty table, and always produces the report file; in particular with zero
adoption rows the report has `total_adopciones = 0` and no `relacion_invalida`
problem, no adoptions CSV is produced, and the pets CSV and the report file
are still produced.  `writeOk` is constantly true: every attempted write
succeeds. -/
theorem tabla_vacia_saltada
    (now ts dir : String) (datos : Datos)
    (h : ∀ m ∈ datos.mascotas, edadComparable m = true)
    (hAd : datos.adopciones = [])
    (hMs : datos.mascotas ≠ []) :
    ∃ r : Reporte,
      transformar_datos now datos = .ok (datos, r) ∧
      r.total_adopciones = 0 ∧
      (∀ p ∈ r.problemas, p.tipo ≠ "relacion_invalida") ∧
      guardar_backups (fun _ => true) ts datos r dir =
        [archivoCSV dir ts "mascotas", archivoJSON dir ts] ∧
      (∀ (d : Datos) (rep : Reporte),
        guardar_backups (fun _ => true) ts d rep dir =
          (if d.mascotas.isEmpty then [] else [archivoCSV dir ts "mascotas"]) ++
          (if d.adopciones.isEmpty then [] else [archivoCSV dir ts "adopciones"]) ++
          [archivoJSON dir ts]) := by
  have hgen : ∀ (d : Datos) (rep : Reporte),
      guardar_backups (fun _ => true) ts d rep dir =
        (if d.mascotas.isEmpty then [] else [archivoCSV dir ts "mascotas"]) ++
        (if d.adopciones.isEmpty then [] else [archivoCSV dir ts "adopciones"]) ++
        [archivoJSON dir ts] := by
    intro d rep
    by_cases h1 : d.mascotas.isEmpty <;> by_cases h2 : d.adopciones.isEmpty <;>
      simp [guardar_backups, escribirTabla, h1, h2]
  refine ⟨_, transformar_datos_ok now datos h, by simp [hAd], ?_, ?_, hgen⟩
  · intro p hp
    rcases List.mem_append.mp hp with hpe | hpr
    · obtain ⟨x, _, hx⟩ := List.mem_filterMap.mp hpe
      rw [problemaEdadDe_tipo hx]
      decide
    · rw [hAd] at hpr
      simp at hpr
  · rw [hgen]
    have h1 : datos.mascotas.isEmpty = false := by
      cases hm : datos.mascotas with
      | nil => exact absurd hm hMs
      | cons a l => simp
    simp [h1, hAd]

/-- Witness for C6: one pet row, zero adoption rows. -/
theorem tabla_vacia_saltada_witness :
    (∀ m ∈ (Datos.mk [[("id", Value.vint 1), ("edad", Value.vint 3)]] []).mascotas,
        edadComparable m = true) ∧
    (Datos.mk [[("id", Value.vint 1), ("edad", Value.vint 3)]] []).adopciones = [] ∧
    (Datos.mk [[("id", Value.vint 1), ("edad", Value.vint 3)]] []).mascotas ≠ [] ∧
    (∃ r : Reporte,
      transformar_datos "t" (Datos.mk [[("id", Value.vint 1), ("edad", Value.vint 3)]] []) =
        .ok (Datos.mk [[("id", Value.vint 1), ("edad", Value.vint 3)]] [], r) ∧
      r.total_adopciones = 0 ∧
      (∀ p ∈ r.problemas, p.tipo ≠ "relacion_invalida") ∧
      guardar_backups (fun _ => true) "ts"
          (Datos.mk [[("id", Value.vint 1), ("edad", Value.vint 3)]] []) r "bk" =
        [archivoCSV "bk" "ts" "mascotas", archivoJSON "bk" "ts"] ∧
      (∀ (d : Datos) (rep : Reporte),
        guardar_backups (fun _ => true) "ts" d rep "bk" =
          (if d.mascotas.isEmpty then [] else [archivoCSV "bk" "ts" "mascotas"]) ++
          (if d.adopciones.isEmpty then [] else [archivoCSV "bk" "ts" "adopciones"]) ++
          [archivoJSON "bk" "ts"])) :=
  ⟨by decide, rfl, by decide,
    tabla_vacia_saltada "t" "ts" "bk" _ (by decide) rfl (by decide)⟩

/-- C7: per-artifact write failures are isolated — for every failure pattern
`writeOk`, the generated-file list contains each non-empty table's CSV exactly
when its own write succeeds and the report file exactly when its own write
succeeds, independently of the other writes; the stage itself is a total
function (the per-file exceptions are caught) and a failed artifact is simply
omitted from the list. -/
theorem fallo_escritura_aislado
    (writeOk : String → Bool) (ts dir : String) (datos : Datos) (rep : Reporte) :
    guardar_backups writeOk ts datos rep dir =
      (if !datos.mascotas.isEmpty && writeOk (archivoCSV dir ts "mascotas") then
        [archivoCSV dir ts "mascotas"] else []) ++
      (if !datos.adopciones.isEmpty && writeOk (archivoCSV dir ts "adopciones") then
        [archivoCSV dir ts "adopciones"] else []) ++
      (if writeOk (archivoJSON dir ts) then [archivoJSON dir ts] else []) ∧
    (writeOk (archivoJSON dir ts) = true →
      archivoJSON dir ts ∈ guardar_backups writeOk ts datos rep dir) := by
  constructor
  · by_cases h1 : datos.mascotas.isEmpty <;>
      by_cases h2 : datos.adopciones.isEmpty <;>
      by_cases h3 : writeOk (archivoCSV dir ts "mascotas") <;>
      by_cases h4 : writeOk (archivoCSV dir ts "adopciones") <;>
      by_cases h5 : writeOk (archivoJSON dir ts) <;>
      simp [guardar_backups, escribirTabla, h1, h2, h3, h4, h5]
  · intro h5
    by_cases h1 : datos.mascotas.isEmpty <;>
      by_cases h2 : datos.adopciones.isEmpty <;>
      by_cases h3 : writeOk (archivoCSV dir ts "mascotas") <;>
      by_cases h4 : writeOk (archivoCSV dir ts "adopciones") <;>
      simp [guardar_backups, escribirTabla, h1, h2, h3, h4, h5]

/-- The timestamp-independent part of a transformation outcome: the returned
data, the three statistics, and the problem list. -/
def formaReporte (p : Datos × Reporte) : Datos × Nat × Nat × Nat × List Problema :=
  (p.1, p.2.total_mascotas, p.2.mascotas_adoptadas, p.2.total_adopciones, p.2.problemas)

/-- C8: transforming the same extraction result twice yields outcomes that
agree on everything except the report timestamp — identical statistics and
identical problem sequences (and the same success/failure verdict). -/
theorem transformacion_determinista
    (datos : Datos) (now1 now2 : String) :
    (transformar_datos now1 datos).map formaReporte =
      (transformar_datos now2 datos).map formaReporte := by
  cases hv : validarEdades 0 datos.mascotas <;>
    simp [transformar_datos, hv, Bind.bind, Except.bind, Except.map, formaReporte]

/-- C9: the report's problem list is the concatenation of the age problems
(one per out-of-range pet, in pet enumeration order — `List.filterMap` over
the enumerated input preserves that order) followed by the relation problems
(one per dangling adoption, in adoption input order); every problem of the
first block has kind `edad_invalida` and every problem of the second has kind
`relacion_invalida`. -/
theorem problemas_ordenados
    (now : String) (datos : Datos)
    (h : ∀ m ∈ datos.mascotas, edadComparable m = true) :
    ∃ r : Reporte,
      transformar_datos now datos = .ok (datos, r) ∧
      ∃ edadP relP : List Problema,
        r.problemas = edadP ++ relP ∧
        edadP = (List.enumFrom 0 datos.mascotas).filterMap problemaEdadDe ∧
        relP = datos.adopciones.filterMap (problemaRelacionDe (idsMascotas datos.mascotas)) ∧
        (∀ p ∈ edadP, p.tipo = "edad_invalida") ∧
        (∀ p ∈ relP, p.tipo = "relacion_invalida") := by
  refine ⟨_, transformar_datos_ok now datos h, _, _, rfl, rfl, rfl, ?_, ?_⟩
  · intro p hp
    obtain ⟨x, _, hx⟩ := List.mem_filterMap.mp hp
    exact problemaEdadDe_tipo hx
  · intro p hp
    obtain ⟨a, _, ha⟩ := List.mem_filterMap.mp hp
    exact problemaRelacionDe_tipo ha

/-- Witness for C9: one out-of-range pet and one dangling adoption. -/
theorem problemas_ordenados_witness :
    (∀ m ∈ (Datos.mk [[("id", Value.vint 1), ("edad", Value.vint 35)]]
        [[("id", Value.vint 2), ("mascota_id", Value.vint 99)]]).mascotas,
        edadComparable m = true) ∧
    (∃ r : Reporte,
      transformar_datos "t"
          (Datos.mk [[("id", Value.vint 1), ("edad", Value.vint 35)]]
            [[("id", Value.vint 2), ("mascota_id", Value.vint 99)]]) =
        .ok (Datos.mk [[("id", Value.vint 1), ("edad", Value.vint 35)]]
            [[("id", Value.vint 2), ("mascota_id", Value.vint 99)]], r) ∧
      ∃ edadP relP : List Problema,
        r.problemas = edadP ++ relP ∧
        edadP = (List.enumFrom 0 (Datos.mk [[("id", Value.vint 1), ("edad", Value.vint 35)]]
            [[("id", Value.vint 2), ("mascota_id", Value.vint 99)]]).mascotas).filterMap
              problemaEdadDe ∧
        relP = (Datos.mk [[("id", Value.vint 1), ("edad", Value.vint 35)]]
            [[("id", Value.vint 2), ("mascota_id", Value.vint 99)]]).adopciones.filterMap
              (problemaRelacionDe (idsMascotas
                (Datos.mk [[("id", Value.vint 1), ("edad", Value.vint 35)]]
                  [[("id", Value.vint 2), ("mascota_id", Value.vint 99)]]).mascotas)) ∧
        (∀ p ∈ edadP, p.tipo = "edad_invalida") ∧
        (∀ p ∈ relP, p.tipo = "relacion_invalida")) :=
  ⟨by decide, problemas_ordenados "t" _ (by decide)⟩

/-- C10: a `None` (or absent) `mascota_id` never matches the pet-id set —
`None` is excluded from `idsMascotas` and Python equality never identifies
`None` with any other value — so such an adoption is always flagged, with the
problem's id being the adoption's own id read with `adopcion.get("id")`
(`None` when absent, no positional fallback); and the flagged problem reaches
the report of any successful transformation containing that adoption. -/
theorem relacion_nula_siempre_marcada
    (ms : List Record) (a : Record)
    (h : getV a "mascota_id" = none ∨ getV a "mascota_id" = some .vnull) :
    Value.vnull ∉ idsMascotas ms ∧
    (∀ v ∈ idsMascotas ms, pyEq (getD a "mascota_id" .vnull) v = false) ∧
    problemaRelacionDe (idsMascotas ms) a = some
      { tipo := "relacion_invalida"
      , tabla := "adopciones"
      , id := getD a "id" .vnull
      , valor_actual := none
      , mensaje := "Mascota None no existe" } ∧
    (∀ (now : String) (datos : Datos) (r : Reporte),
      datos.mascotas = ms → a ∈ datos.adopciones →
      transformar_datos now datos = .ok (datos, r) →
      { tipo := "relacion_invalida"
      , tabla := "adopciones"
      , id := getD a "id" .vnull
      , valor_actual := none
      , mensaje := "Mascota None no existe" : Problema } ∈ r.problemas) := by
  have hmid : getD a "mascota_id" .vnull = .vnull := by
    rcases h with h | h <;> simp [getD, h]
  have hnotin : Value.vnull ∉ idsMascotas ms := by
    intro hc
    obtain ⟨m, _, hm⟩ := List.mem_filterMap.mp hc
    cases hv : getV m "id" with
    | none => simp [hv] at hm
    | some v => cases v <;> simp [hv] at hm
  have hne : ∀ v ∈ idsMascotas ms, pyEq (getD a "mascota_id" .vnull) v = false := by
    intro v hv
    rw [hmid]
    cases v with
    | vnull => exact absurd hv hnotin
    | vint n => rfl
    | vstr s => rfl
    | vbool b => rfl
  have hmem : memPy (getD a "mascota_id" .vnull) (idsMascotas ms) = false := by
    rw [Bool.eq_false_iff]
    intro hc
    obtain ⟨v, hv, hpe⟩ := List.any_eq_true.mp hc
    exact absurd hpe (by simp [hne v hv])
  have hprob : problemaRelacionDe (idsMascotas ms) a = some
      { tipo := "relacion_invalida"
      , tabla := "adopciones"
      , id := getD a "id" .vnull
      , valor_actual := none
      , mensaje := "Mascota None no existe" } := by
    have hmem2 : memPy Value.vnull (idsMascotas ms) = false := by
      rw [← hmid]
      exact hmem
    simp [problemaRelacionDe, hmem, hmem2, hmid, pyStr]
  refine ⟨hnotin, hne, hprob, ?_⟩
  intro now datos r hms ha hok
  unfold transformar_datos at hok
  cases hv : validarEdades 0 datos.mascotas with
  | error e => simp [hv, Bind.bind, Except.bind] at hok
  | ok probE =>
    simp only [hv, Bind.bind, Except.bind, Except.ok.injEq, Prod.mk.injEq] at hok
    have hr : r.problemas =
        probE ++ validarRelaciones (idsMascotas datos.mascotas) datos.adopciones := by
      rw [← hok.2]
    rw [hr, validarRelaciones_eq_filterMap]
    refine List.mem_append_right _ (List.mem_filterMap.mpr ⟨a, ha, ?_⟩)
    rw [hms]
    exact hprob

/-- Witness for C10: no pets at all; one adoption row without a `mascota_id`
key and with id 2. -/
theorem relacion_nula_siempre_marcada_witness :
    (getV [("id", Value.vint 2)] "mascota_id" = none ∨
      getV [("id", Value.vint 2)] "mascota_id" = some .vnull) ∧
    (Value.vnull ∉ idsMascotas [[("id", Value.vint 5)]] ∧
    (∀ v ∈ idsMascotas [[("id", Value.vint 5)]],
      pyEq (getD [("id", Value.vint 2)] "mascota_id" .vnull) v = false) ∧
    problemaRelacionDe (idsMascotas [[("id", Value.vint 5)]]) [("id", Value.vint 2)] = some
      { tipo := "relacion_invalida"
      , tabla := "adopciones"
      , id := getD [("id", Value.vint 2)] "id" .vnull
      , valor_actual := none
      , mensaje := "Mascota None no existe" } ∧
    (∀ (now : String) (datos : Datos) (r : Reporte),
      datos.mascotas = [[("id", Value.vint 5)]] →
      [("id", Value.vint 2)] ∈ datos.adopciones →
      transformar_datos now datos = .ok (datos, r) →
      { tipo := "relacion_invalida"
      , tabla := "adopciones"
      , id := getD [("id", Value.vint 2)] "id" .vnull
      , valor_actual := none
      , mensaje := "Mascota None no existe" : Problema } ∈ r.problemas)) :=
  ⟨Or.inl rfl, relacion_nula_siempre_marcada [[("id", Value.vint 5)]] _ (Or.inl rfl)⟩
